import Mathlib

/-!
Verification of the Kirkespor scheduling-board frontend core
(src/frontend/src/App.js): date-window computation, per-cell event
resolution, employee mutations, and the fetch/refresh controller.

Dates on the window-computation side are modelled as integer day numbers
(days since 1970-01-01, which was a Thursday); `isoDow` gives the ISO day
of week with Monday = 0, Sunday = 6.  Civil (year, month, day) conversion
follows the standard proleptic-Gregorian algorithms, which is what the
date-fns library used by the source implements for `addMonths`.

Dates on the data side (service/absence records) are ISO `yyyy-MM-dd`
strings compared lexicographically, exactly as the JavaScript source
compares them with `<=` and `>=`.
-/

/-! ## Date arithmetic (model of date-fns operations used by App.js) -/

/-- ISO day of week of day number `z`, Monday = 0 through Sunday = 6
(day 0 = 1970-01-01 was a Thursday, index 3). -/
def isoDow (z : Int) : Int := (z + 3) % 7

/-- Model of date-fns `startOfWeek(d, \x7b weekStartsOn: 1 \x7d)`:
the Monday on or before `z`. -/
def startOfWeekZ (z : Int) : Int := z - (z + 3) % 7

/-- Model of date-fns `endOfWeek(d, \x7b weekStartsOn: 1 \x7d)`:
the Sunday on or after `z` (end of the ISO week containing `z`). -/
def endOfWeekZ (z : Int) : Int := startOfWeekZ z + 6

/-- Gregorian leap-year test. -/
def isLeap (y : Int) : Bool := (y % 4 == 0 && y % 100 != 0) || y % 400 == 0

/-- Number of days in month `m` of year `y`. -/
def daysInMonth (y m : Int) : Int :=
  if m = 2 then (if isLeap y then 29 else 28)
  else if m = 4 ∨ m = 6 ∨ m = 9 ∨ m = 11 then 30
  else 31

/-- Day number (days since 1970-01-01) of the civil date `y-m-d`,
proleptic Gregorian calendar. -/
def daysFromCivil (y m d : Int) : Int :=
  let yy := if m ≤ 2 then y - 1 else y
  let era := yy / 400
  let yoe := yy - era * 400
  let mp := (m + 9) % 12
  let doy := (153 * mp + 2) / 5 + d - 1
  let doe := yoe * 365 + yoe / 4 - yoe / 100 + doy
  era * 146097 + doe - 719468

/-- Civil date `(y, m, d)` of a day number; inverse of `daysFromCivil`. -/
def civilFromDays (z : Int) : Int × Int × Int :=
  let w := z + 719468
  let era := w / 146097
  let doe := w - era * 146097
  let yoe := (doe - doe / 1460 + doe / 36524 - doe / 146096) / 365
  let y := yoe + era * 400
  let doy := doe - (365 * yoe + yoe / 4 - yoe / 100)
  let mp := (5 * doy + 2) / 153
  let d := doy - (153 * mp + 2) / 5 + 1
  let m := if mp < 10 then mp + 3 else mp - 9
  (if m ≤ 2 then y + 1 else y, m, d)

/-- Model of date-fns `addMonths` on a civil date: add `n` calendar months
to the year/month, clamping the day of month to the target month's length. -/
def addMonthsCivil : Int × Int × Int → Int → Int × Int × Int
  | (y, m, d), n =>
    let ym := y * 12 + (m - 1) + n
    let y2 := ym / 12
    let m2 := ym % 12 + 1
    (y2, m2, min d (daysInMonth y2 m2))

/-- Lift of `addMonths` to day numbers. -/
def addMonthsZ (z n : Int) : Int :=
  match addMonthsCivil (civilFromDays z) n with
  | (y, m, d) => daysFromCivil y m d

/-! ## DateWindow operations (App.js lines 75-157) -/

/-- The date-range initialization effect (App.js lines 75-83): from the
anchor `currentDate`, `start = startOfWeek(anchor, Monday)` and
`end = endOfWeek(start, Monday)`.  Returns `(start, end)`. -/
def fromAnchor (anchor : Int) : Int × Int :=
  (startOfWeekZ anchor, endOfWeekZ (startOfWeekZ anchor))

/-- Week navigation `navigateWeek` (App.js lines 154-157): `next` adds one week to the
anchor, anything else subtracts one week; the window is then recomputed
from the new anchor by the initialization effect. -/
def navigateWeek (anchor : Int) (direction : String) : Int :=
  if direction = "next" then anchor + 7 else anchor - 7

/-- Quick filter `setQuickFilter` (App.js lines 113-151): computes `(start, end)` for a
recognized preset from `today`; an unknown kind returns without changing
the range (modelled as `none`). -/
def setQuickFilter (kind : String) (today : Int) : Option (Int × Int) :=
  match kind with
  | "1week" =>
    some (startOfWeekZ today, endOfWeekZ (startOfWeekZ today))
  | "2weeks" =>
    some (startOfWeekZ today, endOfWeekZ (startOfWeekZ today + 7))
  | "3weeks" =>
    some (startOfWeekZ today, endOfWeekZ (startOfWeekZ today + 14))
  | "1month" =>
    some (startOfWeekZ today, endOfWeekZ (addMonthsZ (startOfWeekZ today) 1))
  | "2months" =>
    some (startOfWeekZ today, endOfWeekZ (addMonthsZ (startOfWeekZ today) 2))
  | "3months" =>
    some (startOfWeekZ today, endOfWeekZ (addMonthsZ (startOfWeekZ today) 3))
  | _ => none

/-- Predicate stating that `e` is the (unique) Sunday on or after day `target`. -/
def sundayOnOrAfter (e target : Int) : Prop :=
  isoDow e = 6 ∧ target ≤ e ∧ e ≤ target + 6

/-! ## Data model (App.js state `calendarData`) -/

/-- A JavaScript value appearing in an `employee_id` position: `null`,
`undefined`, or a concrete id string.  JavaScript strict equality `===`
distinguishes all three, which is what `deriving DecidableEq` gives. -/
inductive JsId where
  | jnull
  | jundef
  | jid (s : String)
deriving DecidableEq

structure Employee where
  id : String
  name : String
  pos : Nat
deriving DecidableEq

structure Church where
  id : String
  name : String
deriving DecidableEq

structure Service where
  id : String
  kind : String
  date : String
  time : String
  employee_id : JsId
  church_id : String
  notes : Option String
deriving DecidableEq

structure Absence where
  id : String
  kind : String
  employee_id : JsId
  start_date : String
  end_date : String
deriving DecidableEq

structure CalendarData where
  services : List Service
  absences : List Absence
  employees : List Employee
  churches : List Church
  date_range : List String
deriving DecidableEq

/-- Lexicographic comparison of character lists; on ISO `yyyy-MM-dd`
strings this is the JavaScript `<=` string comparison. -/
def jsStrLe : List Char → List Char → Bool
  | [], _ => true
  | _ :: _, [] => false
  | a :: as, b :: bs => if a < b then true else if b < a then false else jsStrLe as bs

/-- JavaScript `a <= b` on strings (code-unit lexicographic order). -/
def jsLe (a b : String) : Bool := jsStrLe a.data b.data

structure CellEvents where
  services : List Service
  absences : List Absence
deriving DecidableEq

/-- Cell resolution `getEventsForCell(date, employeeId)` (App.js lines 168-180): services
match on `date === date && employee_id === employeeId`; absences match on
`employee_id === employeeId && start_date <= date && end_date >= date`. -/
def getEventsForCell (data : CalendarData) (date : String) (employeeId : JsId) : CellEvents :=
  { services := data.services.filter fun s =>
      decide (s.date = date) && decide (s.employee_id = employeeId),
    absences := data.absences.filter fun a =>
      decide (a.employee_id = employeeId) && jsLe a.start_date date && jsLe date a.end_date }

/-- The employee-id arguments the grid render passes to `getEventsForCell`:
`null` for the inbox column (App.js line 425) and `employee.id` for each
roster column (App.js line 432).  The new-employee column renders no
events. -/
def gridQueries (employees : List Employee) : List JsId :=
  JsId.jnull :: employees.map fun e => JsId.jid e.id

/-- Church-name resolution in `renderEventCard` (App.js lines 187, 198):
`churches.find(c => c.id === event.church_id)` then
`church?.name || 'Ukjent kirke'` (a falsy name also falls back). -/
def churchLabel (churches : List Church) (cid : String) : String :=
  match churches.find? (fun c => decide (c.id = cid)) with
  | some c => if c.name = "" then "Ukjent kirke" else c.name
  | none => "Ukjent kirke"

/-! ## Mutations (App.js lines 219-249) -/

/-- JavaScript `String.prototype.trim`: strip leading and trailing
whitespace. -/
def jsTrim (s : String) : String :=
  String.mk (((s.data.dropWhile Char.isWhitespace).reverse.dropWhile Char.isWhitespace).reverse)

structure CreateEmployeeCmd where
  name : String
  pos : Nat
deriving DecidableEq

structure RenameEmployeeCmd where
  employee_id : String
  name : String
deriving DecidableEq

/-- Observable outcome of one mutation call: the command sent to the
collaborator (if any), whether `fetchCalendarData()` was invoked
afterwards, and the error surfaced via `setError` (if any). -/
structure MutationEffect (Cmd : Type) where
  command : Option Cmd
  refreshed : Bool
  error : Option String
deriving DecidableEq

/-- Employee creation `addEmployee(name)` (App.js lines 219-234).  A blank trimmed name
returns immediately.  Otherwise the create command is issued with the
trimmed name and `position = employees.length`; `apiOk` tells whether the
awaited call succeeded.  `fetchCalendarData()` sits inside the `try` after
the `await`, so it runs only on success; on failure control jumps to
`catch`, which sets the error. -/
def addEmployee (name : String) (employees : List Employee) (apiOk : Bool) :
    MutationEffect CreateEmployeeCmd :=
  if jsTrim name = "" then
    { command := none, refreshed := false, error := none }
  else if apiOk then
    { command := some { name := jsTrim name, pos := employees.length },
      refreshed := true, error := none }
  else
    { command := some { name := jsTrim name, pos := employees.length },
      refreshed := false, error := some "Feil ved opprettelse av ansatt" }

/-- Employee rename `updateEmployeeName(employeeId, newName)` (App.js lines 237-249), with
the same shape as `addEmployee`: refresh only on success, error on
failure. -/
def updateEmployeeName (employeeId : String) (newName : String) (apiOk : Bool) :
    MutationEffect RenameEmployeeCmd :=
  if jsTrim newName = "" then
    { command := none, refreshed := false, error := none }
  else if apiOk then
    { command := some { employee_id := employeeId, name := jsTrim newName },
      refreshed := true, error := none }
  else
    { command := some { employee_id := employeeId, name := jsTrim newName },
      refreshed := false, error := some "Feil ved oppdatering av ansatt" }

/-! ## Fetch controller (App.js lines 92-110) -/

structure SyncState where
  calendarData : CalendarData
  error : Option String
deriving DecidableEq

/-- Effect of one `fetchCalendarData` response arriving (App.js lines
103-106): a successful response unconditionally replaces `calendarData`
and clears the error; a failed one keeps the data and sets the error.
The function carries no request token: it cannot tell a stale response
from a current one. -/
def applyFetchResult (st : SyncState) (r : Except String CalendarData) : SyncState :=
  match r with
  | Except.ok d => { calendarData := d, error := none }
  | Except.error e =>
    { st with error := some (String.append "Feil ved lasting av kalenderdata: " e) }

/-- State after a sequence of fetch responses has arrived, in arrival
order. -/
def runFetchResults (st : SyncState) (rs : List (Except String CalendarData)) : SyncState :=
  rs.foldl applyFetchResult st

/-- An empty calendar payload whose window is identified by its
`date_range`. -/
def payloadFor (range : List String) : CalendarData :=
  { services := [], absences := [], employees := [], churches := [], date_range := range }

/-! ## Concrete fixtures for witnesses -/

/-- A sample employee. -/
def exEmployee : Employee := { id := "e1", name := "Anna", pos := 0 }

/-- A sample unassigned (inbox) service on 2024-01-05. -/
def exNullService : Service :=
  { id := "s1", kind := "gudstjeneste", date := "2024-01-05", time := "11:00",
    employee_id := JsId.jnull, church_id := "c1", notes := none }

/-- A sample service whose `employee_id` field is absent (undefined). -/
def exUndefService : Service :=
  { id := "s2", kind := "vielse", date := "2024-01-05", time := "13:00",
    employee_id := JsId.jundef, church_id := "c1", notes := none }

/-- A sample three-day absence, 2024-01-01 through 2024-01-03. -/
def exAbsence : Absence :=
  { id := "a1", kind := "ferie", employee_id := JsId.jid "e1",
    start_date := "2024-01-01", end_date := "2024-01-03" }

/-- A sample loaded calendar payload combining the fixtures above. -/
def exData : CalendarData :=
  { services := [exNullService, exUndefService],
    absences := [exAbsence],
    employees := [exEmployee],
    churches := [{ id := "c1", name := "Kirke A" }],
    date_range := ["2024-01-01", "2024-01-02", "2024-01-03", "2024-01-04",
                   "2024-01-05", "2024-01-06", "2024-01-07"] }

/-! ## Helper lemmas -/

/-- The end of the ISO week containing `x` is the Sunday on or after `x`. -/
theorem endOfWeekZ_is_sundayOnOrAfter (x : Int) : sundayOnOrAfter (endOfWeekZ x) x := by
  unfold sundayOnOrAfter endOfWeekZ startOfWeekZ isoDow
  omega

/-- Every employee-id argument the grid passes to `getEventsForCell` is
either the inbox `null` or a concrete id, never `undefined`. -/
theorem gridQueries_ne_jundef (employees : List Employee) (q : JsId)
    (hq : q ∈ gridQueries employees) : q ≠ JsId.jundef := by
  unfold gridQueries at hq
  rcases List.mem_cons.mp hq with h | h
  · subst h
    simp
  · rcases List.mem_map.mp h with ⟨e, _, rfl⟩
    simp

/-! ## Claim theorems -/

/-- Claim C6: for every anchor date, the window computed by the
initialization effect starts on a Monday, ends on a Sunday, and spans
exactly six days from start to end. -/
theorem fromAnchor_monday_sunday_aligned (anchor : Int) :
    isoDow (fromAnchor anchor).1 = 0 ∧ isoDow (fromAnchor anchor).2 = 6 ∧
      (fromAnchor anchor).2 - (fromAnchor anchor).1 = 6 := by
  dsimp only [fromAnchor, endOfWeekZ, startOfWeekZ, isoDow]
  omega

/-- Claim C9: navigating next and then prev returns the original anchor,
hence the original window: each navigation shifts the anchor by exactly
seven days and the window is recomputed from the anchor. -/
theorem navigateWeek_next_prev_roundtrip (anchor : Int) :
    navigateWeek (navigateWeek anchor "next") "prev" = anchor ∧
      fromAnchor (navigateWeek (navigateWeek anchor "next") "prev") = fromAnchor anchor := by
  have h : navigateWeek (navigateWeek anchor "next") "prev" = anchor := by
    unfold navigateWeek
    rw [if_neg (by decide), if_pos rfl]
    omega
  exact ⟨h, by rw [h]⟩

/-- Claim C2, counterexample: with today = 2024-01-07 (a Sunday), the
1-month preset produces the window 2024-01-01 .. 2024-02-04, whose end is
strictly before today plus one calendar month (2024-02-07) — so the window
does not end on the Sunday on or after today + 1 month. -/
theorem setQuickFilter_month_end_cex :
    setQuickFilter "1month" (daysFromCivil 2024 1 7) =
      some (daysFromCivil 2024 1 1, daysFromCivil 2024 2 4) ∧
    isoDow (daysFromCivil 2024 1 7) = 6 ∧
    daysFromCivil 2024 2 4 < addMonthsZ (daysFromCivil 2024 1 7) 1 := by decide

/-- Claim C2, amended: every recognized quick-filter preset starts the
window at the Monday on or before today, and each month preset (N = 1, 2,
3) ends it on the Sunday on or after startOfISOWeek(today) + N calendar
months — the months are added to the Monday window start, not to today
itself. -/
theorem setQuickFilter_start_aligned_month_end (today : Int) :
    (∀ kind w, setQuickFilter kind today = some w → w.1 = startOfWeekZ today) ∧
    (∀ w, setQuickFilter "1month" today = some w →
      sundayOnOrAfter w.2 (addMonthsZ (startOfWeekZ today) 1)) ∧
    (∀ w, setQuickFilter "2months" today = some w →
      sundayOnOrAfter w.2 (addMonthsZ (startOfWeekZ today) 2)) ∧
    (∀ w, setQuickFilter "3months" today = some w →
      sundayOnOrAfter w.2 (addMonthsZ (startOfWeekZ today) 3)) := by
  refine ⟨?_, ?_, ?_, ?_⟩
  · intro kind w h
    unfold setQuickFilter at h
    split at h <;> cases h <;> rfl
  · intro w h
    have h2 : some (startOfWeekZ today, endOfWeekZ (addMonthsZ (startOfWeekZ today) 1)) =
        some w := h
    cases h2
    exact endOfWeekZ_is_sundayOnOrAfter _
  · intro w h
    have h2 : some (startOfWeekZ today, endOfWeekZ (addMonthsZ (startOfWeekZ today) 2)) =
        some w := h
    cases h2
    exact endOfWeekZ_is_sundayOnOrAfter _
  · intro w h
    have h2 : some (startOfWeekZ today, endOfWeekZ (addMonthsZ (startOfWeekZ today) 3)) =
        some w := h
    cases h2
    exact endOfWeekZ_is_sundayOnOrAfter _

/-- Claim C2, witness: the amended theorem evaluated at today = 2024-01-07:
the 1-month window runs 2024-01-01 .. 2024-02-04, the start is the Monday
of today's week, and the end is the Sunday on or after 2024-01-01 plus one
month. -/
theorem setQuickFilter_start_aligned_month_end_witness :
    setQuickFilter "1month" (daysFromCivil 2024 1 7) =
      some (daysFromCivil 2024 1 1, daysFromCivil 2024 2 4) ∧
    daysFromCivil 2024 1 1 = startOfWeekZ (daysFromCivil 2024 1 7) ∧
    sundayOnOrAfter (daysFromCivil 2024 2 4)
      (addMonthsZ (startOfWeekZ (daysFromCivil 2024 1 7)) 1) := by
  refine ⟨by decide, ?_, ?_⟩
  · exact (setQuickFilter_start_aligned_month_end (daysFromCivil 2024 1 7)).1 "1month"
      (daysFromCivil 2024 1 1, daysFromCivil 2024 2 4) (by decide)
  · exact (setQuickFilter_start_aligned_month_end (daysFromCivil 2024 1 7)).2.1
      (daysFromCivil 2024 1 1, daysFromCivil 2024 2 4) (by decide)

/-- Claim C4: a loaded service with `employee_id = null` is returned by the
cell lookup for the inbox query exactly on its own date, and is returned
for no concrete employee id: the null match is explicit, not a wildcard. -/
theorem servicesFor_null_exact_match (data : CalendarData) (s : Service)
    (hs : s ∈ data.services) (hn : s.employee_id = JsId.jnull) :
    (∀ d, s ∈ (getEventsForCell data d JsId.jnull).services ↔ d = s.date) ∧
    (∀ d e, s ∉ (getEventsForCell data d (JsId.jid e)).services) := by
  constructor
  · intro d
    unfold getEventsForCell
    simp [List.mem_filter, hs, hn, eq_comm]
  · intro d e
    unfold getEventsForCell
    simp [List.mem_filter, hn]

/-- Claim C4, witness: the sample inbox service is in the inbox cell on its
date 2024-01-05 and in no cell of employee e1. -/
theorem servicesFor_null_exact_match_witness :
    exNullService ∈ (getEventsForCell exData "2024-01-05" JsId.jnull).services ∧
    exNullService ∉ (getEventsForCell exData "2024-01-05" (JsId.jid "e1")).services := by
  constructor
  · exact ((servicesFor_null_exact_match exData exNullService (by decide) rfl).1
      "2024-01-05").mpr rfl
  · exact (servicesFor_null_exact_match exData exNullService (by decide) rfl).2
      "2024-01-05" "e1"

/-- Claim C5: an absence is in the cell lookup for `(d, q)` exactly when it
is in the loaded data, its employee matches `q`, and `d` lies in the
inclusive range `start_date .. end_date` (string comparison, as in the
source); overlapping absences are all kept since this is a plain filter. -/
theorem absencesFor_mem_iff (data : CalendarData) (a : Absence) (d : String) (q : JsId) :
    a ∈ (getEventsForCell data d q).absences ↔
      a ∈ data.absences ∧ a.employee_id = q ∧
        jsLe a.start_date d = true ∧ jsLe d a.end_date = true := by
  unfold getEventsForCell
  simp [List.mem_filter, and_assoc]

/-- Claim C5, witness: the sample absence 2024-01-01 .. 2024-01-03 for e1
is returned on 2024-01-02 (and the characterization shows it is returned
exactly on in-range dates). -/
theorem absencesFor_mem_iff_witness :
    exAbsence ∈ (getEventsForCell exData "2024-01-02" (JsId.jid "e1")).absences ∧
    exAbsence ∉ (getEventsForCell exData "2024-01-04" (JsId.jid "e1")).absences := by
  constructor
  · exact (absencesFor_mem_iff exData exAbsence "2024-01-02" (JsId.jid "e1")).mpr
      ⟨by decide, rfl, by decide, by decide⟩
  · intro hmem
    have h := (absencesFor_mem_iff exData exAbsence "2024-01-04" (JsId.jid "e1")).mp hmem
    exact absurd h.2.2.2 (by decide)

/-- Claim C10: a service whose `employee_id` is absent (undefined) appears
in no cell of the grid: neither the inbox query (null) nor any employee-id
query matches it under strict equality. -/
theorem undef_service_in_no_cell (data : CalendarData) (s : Service) (d : String)
    (h : s.employee_id = JsId.jundef) :
    ∀ q ∈ gridQueries data.employees, s ∉ (getEventsForCell data d q).services := by
  intro q hq hmem
  have hne : q ≠ JsId.jundef := gridQueries_ne_jundef data.employees q hq
  have h2 := (List.mem_filter.mp hmem).2
  simp at h2
  exact hne (h ▸ h2.2.symm)

/-- Claim C10, witness: the sample undefined-employee service shows up
neither in the inbox cell nor in employee e1's cell on its own date. -/
theorem undef_service_in_no_cell_witness :
    exUndefService ∉ (getEventsForCell exData "2024-01-05" JsId.jnull).services ∧
    exUndefService ∉ (getEventsForCell exData "2024-01-05" (JsId.jid "e1")).services := by
  constructor
  · exact undef_service_in_no_cell exData exUndefService "2024-01-05" rfl
      JsId.jnull (by decide)
  · exact undef_service_in_no_cell exData exUndefService "2024-01-05" rfl
      (JsId.jid "e1") (by decide)

/-- Claim C8: a church id that resolves to no church in the loaded catalog
renders as the sentinel "Ukjent kirke", and the cell contents of the grid
do not depend on the church catalog at all, so a reference miss never
alters or fails the projection. -/
theorem unresolved_church_sentinel (data : CalendarData) (cid : String)
    (h : ∀ c ∈ data.churches, c.id ≠ cid) :
    churchLabel data.churches cid = "Ukjent kirke" ∧
    ∀ cs2 d q, getEventsForCell { data with churches := cs2 } d q =
      getEventsForCell data d q := by
  constructor
  · unfold churchLabel
    have hf : data.churches.find? (fun c => decide (c.id = cid)) = none := by
      apply List.find?_eq_none.mpr
      intro c hc
      simp [h c hc]
    rw [hf]
  · intro cs2 d q
    rfl

/-- Claim C8, witness: in the sample data the id "c9" resolves to no
church and renders as the sentinel. -/
theorem unresolved_church_sentinel_witness :
    churchLabel exData.churches "c9" = "Ukjent kirke" := by
  exact (unresolved_church_sentinel exData "c9" (by decide)).1

/-- Claim C7: appending an employee with a blank or whitespace-only name
produces no creation command, no refresh and no error (a silent no-op);
otherwise the creation command carries the trimmed name and a position
equal to the current employee count. -/
theorem addEmployee_trim_validation (name : String) (employees : List Employee) (apiOk : Bool) :
    (jsTrim name = "" →
      addEmployee name employees apiOk =
        { command := none, refreshed := false, error := none }) ∧
    (jsTrim name ≠ "" →
      (addEmployee name employees apiOk).command =
        some { name := jsTrim name, pos := employees.length }) := by
  constructor
  · intro h
    unfold addEmployee
    rw [if_pos h]
  · intro h
    unfold addEmployee
    rw [if_neg h]
    cases apiOk <;> rfl

/-- Claim C7, witness: a whitespace-only name is a silent no-op, while
"Ola " (trailing space) yields a creation command named "Ola" at position
0 of an empty roster. -/
theorem addEmployee_trim_validation_witness :
    addEmployee "  " [] true = { command := none, refreshed := false, error := none } ∧
    (addEmployee "Ola " [] true).command = some { name := "Ola", pos := 0 } := by
  constructor
  · exact (addEmployee_trim_validation "  " [] true).1 (by decide)
  · have h := (addEmployee_trim_validation "Ola " [] true).2 (by decide)
    exact h

/-- Claim C1, counterexample: when the create-employee call fails, the
code jumps to the catch block and `fetchCalendarData()` is never reached —
the error is surfaced but no refresh is triggered, contradicting
"a refresh is triggered regardless of success or failure". -/
theorem failed_mutation_skips_refresh_cex :
    (addEmployee "Ola" [] false).refreshed = false ∧
    (addEmployee "Ola" [] false).error = some "Feil ved opprettelse av ansatt" ∧
    (updateEmployeeName "e1" "Kari" false).refreshed = false ∧
    (updateEmployeeName "e1" "Kari" false).error = some "Feil ved oppdatering av ansatt" := by
  decide

/-- Claim C1, amended: for a non-blank name, each mutation command
triggers the refresh exactly when the mutation succeeded; a failed
mutation surfaces its own error and skips the refresh, because the
refresh call sits inside the try block after the awaited mutation. -/
theorem mutation_refresh_on_success_only (name : String) (employees : List Employee)
    (employeeId newName : String) (apiOk : Bool) :
    (jsTrim name ≠ "" →
      (addEmployee name employees apiOk).refreshed = apiOk ∧
        ((addEmployee name employees apiOk).error.isSome = true ↔ apiOk = false)) ∧
    (jsTrim newName ≠ "" →
      (updateEmployeeName employeeId newName apiOk).refreshed = apiOk ∧
        ((updateEmployeeName employeeId newName apiOk).error.isSome = true ↔ apiOk = false)) := by
  constructor
  · intro h
    unfold addEmployee
    rw [if_neg h]
    cases apiOk <;> simp
  · intro h
    unfold updateEmployeeName
    rw [if_neg h]
    cases apiOk <;> simp

/-- Claim C1, witness: successful mutations with non-blank names do
trigger the refresh. -/
theorem mutation_refresh_on_success_only_witness :
    (addEmployee "Ola" [] true).refreshed = true ∧
    (updateEmployeeName "e1" "Kari" true).refreshed = true := by
  constructor
  · exact ((mutation_refresh_on_success_only "Ola" [] "e1" "Kari" true).1 (by decide)).1
  · exact ((mutation_refresh_on_success_only "Ola" [] "e1" "Kari" true).2 (by decide)).1

/-- Claim C3, counterexample: refreshes are issued for window W1 (range
starting 2024-01-01) and then W2 (range starting 2024-01-08); W2's
response arrives first and W1's stale response arrives second.  The final
state holds W1's payload, not W2's: the code applies every response
unconditionally, so the last-initiated fetch does not win. -/
theorem stale_response_overwrites_cex :
    (runFetchResults { calendarData := payloadFor [], error := none }
        [Except.ok (payloadFor ["2024-01-08"]),
         Except.ok (payloadFor ["2024-01-01"])]).calendarData =
      payloadFor ["2024-01-01"] ∧
    payloadFor ["2024-01-01"] ≠ payloadFor ["2024-01-08"] := by decide

/-- Claim C3, amended: the state visible to the grid after all responses
have arrived reflects whichever successful response arrived last,
regardless of issue order — `fetchCalendarData` carries no request token
and performs no stale-response rejection, so a late-arriving older
response overwrites a newer one. -/
theorem last_arrival_wins (st : SyncState) (rs : List (Except String CalendarData))
    (d : CalendarData) :
    (runFetchResults st (rs ++ [Except.ok d])).calendarData = d := by
  unfold runFetchResults
  rw [List.foldl_append]
  rfl
